import Mathlib

set_option autoImplicit false

/-!
Verification development for the procurement workflow repository.

The repository wires three agents (IntakeAgent, SupplierAgent, ApprovalAgent)
into a linear LangGraph pipeline over a shared dict-shaped state
(`src/workflow/run_workflow.py`).  This file shallowly embeds:

* the Python value / state model (`WorkflowState` dicts),
* the three agents (`src/agents/intake_agent.py`, `supplier_agent.py`,
  `approval_agent.py`),
* the graph wiring plus LangGraph's execution of a linear chain
  (sequential node invocation with shallow dict merge of each returned
  update, exceptions propagating to the caller),
* a heap-level model of the same run used to verify that `invoke` never
  mutates the caller's objects.

Strings are modelled over ASCII (every string handled by the demo is
ASCII); Python's `re` substitutions used by the intake agent are embedded
as direct scanning functions over the character list.
-/

namespace Procure

/-- Python values that can occur in a `WorkflowState` dict
(`run_workflow.py` lines 31-50: str, int, bool, list). -/
inductive Val where
  | str : String → Val
  | int : Int → Val
  | bool : Bool → Val
  | list : List Val → Val

/-- Python exceptions that the embedded code can raise. -/
inductive PyErr where
  | keyError : String → PyErr
  | typeError : String → PyErr
  | valueError : String → PyErr
  | attrError : String → PyErr
deriving DecidableEq

/-- A Python dict with string keys, as an insertion-ordered association list. -/
abbrev State : Type := List (String × Val)

/-- First-match association-list lookup, the model of Python dict access. -/
def alookup {α : Type} : List (String × α) → String → Option α
  | [], _ => none
  | p :: t, k => if p.1 = k then some p.2 else alookup t k

/-- Python dict merge `\x7b **c, **f \x7d`: keys of `c` keep their position and
are overwritten by same-named keys of `f`; keys only in `f` are appended in
order (`run_workflow.py` lines 75-80 and LangGraph's channel update). -/
def pyMerge {α : Type} (c f : List (String × α)) : List (String × α) :=
  c.map (fun p => (p.1, (alookup f p.1).getD p.2)) ++
    f.filter (fun p => (alookup c p.1).isNone)

/-- Option alternative used to state merge-lookup facts. -/
def oor {α : Type} : Option α → Option α → Option α
  | some v, _ => some v
  | none, b => b

/-! ### String helpers (Python `str` methods over ASCII) -/

/-- Python whitespace as matched by `str.strip` and `\s` (ASCII range). -/
def pyIsSpace (c : Char) : Bool :=
  c == ' ' || c == '\t' || c == '\n' || c == '\r' || c == '\x0b' || c == '\x0c'

/-- Python `str.strip()` on a character list. -/
def pyStripChars (l : List Char) : List Char :=
  ((l.dropWhile pyIsSpace).reverse.dropWhile pyIsSpace).reverse

/-- Python `str.strip()`. -/
def pyStrip (s : String) : String := ⟨pyStripChars s.data⟩

/-- Does the character list end in `s`? (`text.endswith("s")`). -/
def endsS (l : List Char) : Bool :=
  match l.reverse with
  | c :: _ => c == 's'
  | [] => false

/-- Does the character list end in `ss`? (`text.endswith("ss")`). -/
def endsSS (l : List Char) : Bool :=
  match l.reverse with
  | c :: d :: _ => c == 's' && d == 's'
  | _ => false

/-- Drop one trailing `s` unless the text ends in `ss` — the shared
plural heuristic (`intake_agent.py` lines 102-104, `supplier_agent.py`
lines 50-54). -/
def stripPluralS (l : List Char) : List Char :=
  if endsS l && !endsSS l then l.dropLast else l

/-- The single-quote character, used by Python `repr` of strings. -/
def sq : String := ⟨[Char.ofNat 39]⟩

/-- Python `repr` of a string (model: the plain single-quoted form, which
is exact for strings without quotes, backslashes or control characters —
all strings the demo formats). -/
def pyReprStr (s : String) : String := sq ++ s ++ sq

mutual

/-- Python `repr`/`str` of a value as used in the f-string log lines. -/
def pyReprVal : Val → String
  | .str s => pyReprStr s
  | .int n => toString n
  | .bool b => if b then "True" else "False"
  | .list l => "[" ++ String.intercalate ", " (pyReprValList l) ++ "]"

/-- Python `repr` of each element of a list of values. -/
def pyReprValList : List Val → List String
  | [] => []
  | v :: t => pyReprVal v :: pyReprValList t

end

/-- Python `repr` of a dict, as interpolated by f-strings in the nodes. -/
def pyReprDict (d : State) : String :=
  "\x7b" ++
    String.intercalate ", "
      (d.map (fun p => pyReprStr p.1 ++ ": " ++ pyReprVal p.2)) ++
    "\x7d"

/-- Python `str()` of a value (`str(decision["reason"])`). -/
def pyStr : Val → String
  | .str s => s
  | v => pyReprVal v

/-- Python truthiness (`bool(decision["approved"])`, `if supplier:`). -/
def pyTruthy : Val → Bool
  | .str s => s != ""
  | .int n => n != 0
  | .bool b => b
  | .list l => !l.isEmpty

/-- Value of a decimal digit run. -/
def digitsToNat (ds : List Char) : Nat :=
  ds.foldl (fun a c => a * 10 + (c.toNat - 48)) 0

/-- Python `int()` on a string: strip, optional sign, digits (model covers
the plain decimal forms; anything else raises `ValueError`). -/
def pyIntOfStr (s : String) : Except PyErr Int :=
  match pyStripChars s.data with
  | '-' :: ds => if ds ≠ [] ∧ ds.all Char.isDigit then .ok (-(digitsToNat ds : Int))
      else .error (.valueError s)
  | '+' :: ds => if ds ≠ [] ∧ ds.all Char.isDigit then .ok (digitsToNat ds)
      else .error (.valueError s)
  | ds => if ds ≠ [] ∧ ds.all Char.isDigit then .ok (digitsToNat ds)
      else .error (.valueError s)

/-- Python `int()` on a value (`int(parsed["quantity"])`,
`int(state.get("quantity", 1))`). -/
def pyInt : Val → Except PyErr Int
  | .int n => .ok n
  | .bool b => .ok (if b then 1 else 0)
  | .str s => pyIntOfStr s
  | .list _ => .error (.typeError "int() argument must not be a list")

/-! ### IntakeAgent (`src/agents/intake_agent.py`) -/

/-- First maximal digit run of the text, if any (`re.search(r"(\d+)", ...)`). -/
def firstDigitRun : List Char → Option (List Char)
  | [] => none
  | c :: cs => if c.isDigit then some (c :: cs.takeWhile Char.isDigit)
      else firstDigitRun cs

/-- `IntakeAgent._extract_quantity`: the first integer found, defaulting
to 1.  (`int()` of a digit run never raises, so the `except ValueError`
branch in the source is dead.) -/
def extractQuantity (r : String) : Int :=
  match firstDigitRun r.data with
  | some ds => (digitsToNat ds : Int)
  | none => 1

/-- Replace each maximal run of `p`-characters by a single space: the model
of `re.sub(r"\d+", " ", ...)` and `re.sub(r"\s+", " ", ...)`.  The flag
records whether the previous character was in a run. -/
def squashRuns (p : Char → Bool) : Bool → List Char → List Char
  | _, [] => []
  | inRun, c :: cs =>
    if p c then
      (if inRun then squashRuns p true cs else ' ' :: squashRuns p true cs)
    else c :: squashRuns p false cs

/-- Word characters of the regex `\b` boundary (`\w`, ASCII range). -/
def isWordChar (c : Char) : Bool := c.isAlpha || c.isDigit || c == '_'

/-- The verb alternatives of `re.sub(r"\b(order|buy|purchase|get|acquire|request)\b", ...)`,
in the alternation order the regex tries them. -/
def verbWords : List (List Char) :=
  ["order".data, "buy".data, "purchase".data, "get".data, "acquire".data,
    "request".data]

/-- Case-insensitive prefix match: returns the rest of the input after the
pattern, if the pattern matches (IGNORECASE letters). -/
def ciPrefix : List Char → List Char → Option (List Char)
  | [], rest => some rest
  | _ :: _, [] => none
  | w :: ws, c :: cs => if c.toLower == w then ciPrefix ws cs else none

/-- Regex `\b` after a match ending in a word character: end of input or a
non-word character follows. -/
def boundaryAfter : List Char → Bool
  | [] => true
  | c :: _ => !isWordChar c

/-- Try each verb alternative in order at the current position; on success
return the rest of the input after the match. -/
def tryVerbs : List (List Char) → List Char → Option (List Char)
  | [], _ => none
  | w :: ws, s =>
    match ciPrefix w s with
    | some rest => if boundaryAfter rest then some rest else tryVerbs ws s
    | none => tryVerbs ws s

/-- Left-to-right scan of `re.sub(r"\b(verbs)\b", " ", ..., IGNORECASE)`.
`prevWord` records whether the previous original character was a word
character (so `\b` holds at the current position iff `prevWord` is false,
since every verb starts with a letter).  The fuel argument is the input
length; each step consumes at least one character, so the fuel-exhausted
case is never reached. -/
def removeVerbsAux : Nat → Bool → List Char → List Char
  | _, _, [] => []
  | 0, _, s => s
  | fuel + 1, prevWord, c :: cs =>
    if prevWord then c :: removeVerbsAux fuel (isWordChar c) cs
    else
      match tryVerbs verbWords (c :: cs) with
      | some rest => ' ' :: removeVerbsAux fuel true rest
      | none => c :: removeVerbsAux fuel (isWordChar c) cs

/-- `re.sub(r"\b(order|buy|purchase|get|acquire|request)\b", " ", l, IGNORECASE)`. -/
def removeVerbs (l : List Char) : List Char := removeVerbsAux l.length false l

/-- `IntakeAgent._extract_item` (`intake_agent.py` lines 94-105): remove
digit runs, remove the common verbs, collapse whitespace, strip, lowercase;
then, when the (truthy-defaulted) quantity is 1, drop one trailing `s`
unless the word ends in `ss`. -/
def extractItem (r : String) (q : Int) : String :=
  let c1 := squashRuns Char.isDigit false r.data
  let c2 := removeVerbs c1
  let c3 := (pyStripChars (squashRuns pyIsSpace false c2)).map Char.toLower
  let qd := if q == 0 then 1 else q
  if qd == 1 then ⟨stripPluralS c3⟩ else ⟨c3⟩

/-- Parsed item of a request. -/
def itemOf (r : String) : String := extractItem r (extractQuantity r)

/-- Parsed quantity of a request. -/
def qtyOf (r : String) : Int := extractQuantity r

/-- `IntakeAgent._parse_to_dict`: the dict
`\x7b"item": ..., "quantity": ..., "raw_request": ...\x7d`. -/
def parseRequest (r : String) : State :=
  [("item", .str (itemOf r)), ("quantity", .int (qtyOf r)),
    ("raw_request", .str r)]

/-! ### SupplierAgent (`src/agents/supplier_agent.py`) -/

/-- An item-to-supplier catalog (Python `Dict[str, str]`). -/
abbrev SAList : Type := List (String × String)

/-- `KeywordMappingRetriever._normalize`: strip, lowercase, drop one
trailing `s` unless the text ends in `ss`. -/
def pyNormalize (t : String) : String :=
  ⟨stripPluralS ((pyStripChars t.data).map Char.toLower)⟩

/-- `KeywordMappingRetriever._alt_normalize`: toggle the simple plural form. -/
def altNormalize (t : String) : String :=
  if endsS t.data && !endsSS t.data then ⟨t.data.dropLast⟩ else t ++ "s"

/-- Python dict insertion with overwrite: existing keys keep their
position and get the new value, new keys are appended. -/
def dictInsertS (d : SAList) (k v : String) : SAList :=
  if (alookup d k).isSome then d.map (fun p => if p.1 = k then (p.1, v) else p)
  else d ++ [(k, v)]

/-- The retriever's stored mapping: the dict comprehension
`\x7bself._normalize(k): v for k, v in item_to_supplier.items()\x7d`. -/
def buildMapping (cat : SAList) : SAList :=
  cat.foldl (fun d p => dictInsertS d (pyNormalize p.1) p.2) []

/-- Python truthiness filter on an optional string (`if supplier:` treats
both a missing key and an empty string as false). -/
def truthyStr : Option String → Option String
  | some v => if v = "" then none else some v
  | none => none

/-- `KeywordMappingRetriever._get_relevant_documents`: page contents of
the returned documents — the direct normalized match, else the
plural/singular toggle match, else nothing. -/
def retrievedDocs (m : SAList) (query : String) : List String :=
  match truthyStr (alookup m (pyNormalize query)) with
  | some v => [v]
  | none =>
    match truthyStr (alookup m (altNormalize (pyNormalize query))) with
    | some v => [v]
    | none => []

/-- `SupplierAgent._lookup_to_dict`, supplier component:
`docs[0].page_content if docs else "Unknown Supplier"`. -/
def supplierFor (cat : SAList) (item : String) : String :=
  match retrievedDocs (buildMapping cat) item with
  | v :: _ => v
  | [] => "Unknown Supplier"

/-- `SupplierAgent.get_supplier`: the dict
`\x7b"item": item, "supplier": supplier\x7d`. -/
def getSupplier (cat : SAList) (item : String) : State :=
  [("item", .str item), ("supplier", .str (supplierFor cat item))]

/-! ### ApprovalAgent (`src/agents/approval_agent.py`) -/

/-- Reason string of the approving branch of `_decide_to_dict`. -/
def withinStr (maxQ q : Int) : String :=
  "Quantity " ++ toString q ++ " is within auto-approval threshold (<= " ++
    toString maxQ ++ ")."

/-- Reason string of the denying branch of `_decide_to_dict`. -/
def exceedsStr (maxQ q : Int) : String :=
  "Quantity " ++ toString q ++ " exceeds auto-approval threshold (> " ++
    toString maxQ ++ ")."

/-- `ApprovalAgent._decide_to_dict`: approve iff the quantity is at most
the threshold, with the matching reason string. -/
def decideToDict (maxQ q : Int) : State :=
  if q ≤ maxQ then
    [("approved", .bool true), ("reason", .str (withinStr maxQ q))]
  else
    [("approved", .bool false), ("reason", .str (exceedsStr maxQ q))]

/-! ### Workflow graph and executor (`src/workflow/run_workflow.py`) -/

/-- The demo supplier catalog hardcoded in `build_graph`
(`run_workflow.py` lines 59-68). -/
def demoCatalog : SAList :=
  [("laptop", "Acme Computers"), ("monitor", "Display World"),
    ("mouse", "Pointer Pros"), ("keyboard", "KeyCo"),
    ("chair", "OfficeCo"), ("desk", "FurnishIt")]

/-- Read `state.get("logs", [])` as a Python list; a present non-list value
makes the subsequent `+ [entry]` raise `TypeError`. -/
def getLogsList (s : State) : Except PyErr (List Val) :=
  match alookup s "logs" with
  | none => .ok []
  | some (.list l) => .ok l
  | some _ => .error (.typeError "can only concatenate list to list")

/-- Log line of the intake node: `f"Intake parsed: \x7bparsed\x7d"`. -/
def intakeMsg (r : String) : String :=
  "Intake parsed: " ++ pyReprDict (parseRequest r)

/-- Log line of the supplier node: `f"Supplier selected: \x7blookup\x7d"`. -/
def supplierMsg (it : String) : String :=
  "Supplier selected: " ++ pyReprDict (getSupplier demoCatalog it)

/-- Log line of the approval node: `f"Approval decision: \x7bdecision\x7d"`. -/
def approvalMsg (q : Int) : String :=
  "Approval decision: " ++ pyReprDict (decideToDict 5 q)

/-- `intake_node` (`run_workflow.py` lines 71-80): parse the request and
return `\x7b**state, "item": ..., "quantity": ..., "logs": ...\x7d`.
A missing `original_request` key raises `KeyError`. -/
def intakeNode (s : State) : Except PyErr State :=
  match alookup s "original_request" with
  | none => .error (.keyError "original_request")
  | some v =>
    match v with
    | .str r =>
      let parsed := parseRequest r
      match getLogsList s with
      | .error e => .error e
      | .ok prior =>
        let logs := prior ++ [Val.str (intakeMsg r)]
        match alookup parsed "item", alookup parsed "quantity" with
        | some itV, some qV =>
          match pyInt qV with
          | .error e => .error e
          | .ok q =>
            .ok (pyMerge s
              [("item", itV), ("quantity", .int q), ("logs", .list logs)])
        | _, _ => .error (.keyError "item")
    | _ => .error (.typeError "expected string object for re.search")

/-- `supplier_node` (`run_workflow.py` lines 82-90): look the item up via
the supplier agent and return
`\x7b**state, "supplier": ..., "logs": ...\x7d`. -/
def supplierNode (s : State) : Except PyErr State :=
  match (alookup s "item").getD (.str "") with
  | .str it =>
    let lk := getSupplier demoCatalog it
    match getLogsList s with
    | .error e => .error e
    | .ok prior =>
      let logs := prior ++ [Val.str (supplierMsg it)]
      match alookup lk "supplier" with
      | some supV => .ok (pyMerge s [("supplier", supV), ("logs", .list logs)])
      | none => .error (.keyError "supplier")
  | _ => .error (.attrError "strip")

/-- `approval_node` (`run_workflow.py` lines 92-101): decide on
`int(state.get("quantity", 1))` and return
`\x7b**state, "approved": ..., "reason": ..., "logs": ...\x7d`. -/
def approvalNode (s : State) : Except PyErr State :=
  match pyInt ((alookup s "quantity").getD (.int 1)) with
  | .error e => .error e
  | .ok q =>
    let d := decideToDict 5 q
    match getLogsList s with
    | .error e => .error e
    | .ok prior =>
      let logs := prior ++ [Val.str (approvalMsg q)]
      match alookup d "approved", alookup d "reason" with
      | some aV, some rV =>
        .ok (pyMerge s
          [("approved", .bool (pyTruthy aV)), ("reason", .str (pyStr rV)),
            ("logs", .list logs)])
      | _, _ => .error (.keyError "approved")

/-- LangGraph's `START` sentinel. -/
def startKey : String := "__start__"

/-- LangGraph's `END` sentinel. -/
def endKey : String := "__end__"

/-- The registered node names (`graph.add_node`, lines 103-105). -/
def graphNodes : List String := ["intake", "supplier", "approval"]

/-- The registered edges (`graph.add_edge`, lines 107-110). -/
def graphEdges : List (String × String) :=
  [(startKey, "intake"), ("intake", "supplier"), ("supplier", "approval"),
    ("approval", endKey)]

/-- Static successor of a node in the (linear) edge set. -/
def nextNode (n : String) : Option String :=
  (graphEdges.find? (fun e => e.1 = n)).map Prod.snd

/-- Follow edges from a node, collecting the stage names until `END`; the
fuel bounds the walk on a (hypothetically) cyclic edge set. -/
def planFrom : Nat → String → List String
  | 0, _ => []
  | fuel + 1, n =>
    match nextNode n with
    | none => []
    | some m => if m = endKey then [] else m :: planFrom fuel m

/-- The compiled execution order: the chain found by following edges from
`START` (the plan `graph.compile()` executes). -/
def executionOrder : List String := planFrom (graphEdges.length + 1) startKey

/-- The stage function registered under each node name. -/
def nodeFnOf : String → Option (State → Except PyErr State)
  | "intake" => some intakeNode
  | "supplier" => some supplierNode
  | "approval" => some approvalNode
  | _ => none

/-- The executor: run each planned node on the current state and shallow-merge
its returned update into the state (LangGraph's channel update for a
plain `TypedDict` schema); a raising node aborts the run with its error. -/
def runPlan : List String → State → Except PyErr State
  | [], s => .ok s
  | n :: rest, s =>
    match nodeFnOf n with
    | none => .error (.keyError n)
    | some f =>
      match f s with
      | .error e => .error e
      | .ok frag => runPlan rest (pyMerge s frag)

/-- `app.invoke(initial_state)` for the compiled demo graph. -/
def invoke (s : State) : Except PyErr State := runPlan executionOrder s

/-- Field `k` of the final state of a run, `none` when the run raises. -/
def runField (s : State) (k : String) : Option Val :=
  match invoke s with
  | .ok fin => alookup fin k
  | .error _ => none

/-- Does the run complete without raising? -/
def runOk (s : State) : Bool :=
  match invoke s with
  | .ok _ => true
  | .error _ => false

/-- String content of an optional value, used to state field facts. -/
def asStr : Option Val → Option String
  | some (.str t) => some t
  | _ => none

/-- The initial state `run_demo` constructs for a request
(`run_workflow.py` lines 121-124). -/
def runDemoState (req : String) : State :=
  [("original_request", .str req),
    ("logs", .list [.str ("Received request: " ++ req)])]

/-- Requests processed by `main` (`run_workflow.py` lines 141-150), as a
function of the optional contents of `examples/test_requests.txt`: the
stripped non-empty lines, or the hardcoded sample when the file is absent
(`FileNotFoundError` branch). -/
def mainLines : Option String → List String
  | none => ["Order 3 laptops"]
  | some contents =>
    ((contents.splitOn "\n").map pyStrip).filter (fun l => l ≠ "")

/-! ### Lookup and merge lemmas -/

theorem oor_some {α : Type} (a : α) (b : Option α) : oor (some a) b = some a := rfl

theorem oor_none {α : Type} (b : Option α) : oor none b = b := rfl

theorem alookup_append {α : Type} (l₁ l₂ : List (String × α)) (k : String) :
    alookup (l₁ ++ l₂) k = oor (alookup l₁ k) (alookup l₂ k) := by
  induction l₁ with
  | nil => rfl
  | cons p t ih => by_cases h : p.1 = k <;> simp [alookup, h, ih, oor]

theorem alookup_map_overwrite {α : Type} (c f : List (String × α)) (k : String) :
    alookup (c.map (fun p => (p.1, (alookup f p.1).getD p.2))) k =
      (alookup c k).map (fun v => (alookup f k).getD v) := by
  induction c with
  | nil => rfl
  | cons p t ih => by_cases h : p.1 = k <;> simp [alookup, h, ih]

theorem alookup_filter_not_in {α : Type} (c f : List (String × α)) (k : String) :
    alookup (f.filter (fun p => (alookup c p.1).isNone)) k =
      if (alookup c k).isNone then alookup f k else none := by
  induction f with
  | nil => cases h : (alookup c k).isNone <;> simp [alookup, h]
  | cons p t ih =>
    by_cases hp : (alookup c p.1).isNone <;> by_cases hk : p.1 = k
    · subst hk; simp [List.filter_cons, alookup, hp]
    · simp [List.filter_cons, alookup, hp, hk, ih]
    · subst hk; simp [List.filter_cons, alookup, hp, ih]
    · simp [List.filter_cons, alookup, hp, hk, ih]

theorem pyMerge_alookup {α : Type} (c f : List (String × α)) (k : String) :
    alookup (pyMerge c f) k = oor (alookup f k) (alookup c k) := by
  rw [pyMerge, alookup_append, alookup_map_overwrite, alookup_filter_not_in]
  cases hc : alookup c k <;> cases hf : alookup f k <;> simp [oor, hc, hf]

theorem alookup_isSome_of_mem {α : Type} {l : List (String × α)} {p : String × α}
    (h : p ∈ l) : (alookup l p.1).isSome = true := by
  induction l with
  | nil => cases h
  | cons q t ih =>
    rcases List.mem_cons.mp h with rfl | h2
    · simp [alookup]
    · by_cases hq : q.1 = p.1 <;> simp [alookup, hq, ih h2]

theorem alookup_of_mem_nodup {α : Type} {l : List (String × α)} {p : String × α}
    (hn : (l.map Prod.fst).Nodup) (h : p ∈ l) : alookup l p.1 = some p.2 := by
  induction l with
  | nil => cases h
  | cons q t ih =>
    simp only [List.map_cons, List.nodup_cons] at hn
    rcases List.mem_cons.mp h with rfl | h2
    · simp [alookup]
    · have hq : q.1 ≠ p.1 := by
        intro he
        exact hn.1 (he ▸ List.mem_map.mpr ⟨p, h2, rfl⟩)
      simp [alookup, hq, ih hn.2 h2]

theorem list_map_id_of {α : Type} {l : List α} {g : α → α}
    (h : ∀ p ∈ l, g p = p) : l.map g = l := by
  induction l with
  | nil => rfl
  | cons a t ih => simp [h a (by simp), ih (fun p hp => h p (by simp [hp]))]

/-- C7: the Executor's merge step `next_state = \x7b **current_state, **fragment \x7d`
is idempotent — merging the same fragment twice equals merging it once — and
every key absent from the fragment keeps its value from the current state.
The hypothesis records that a Python dict fragment has no duplicate keys. -/
theorem c7_merge_idempotent (c f : State) (hf : (f.map Prod.fst).Nodup) :
    pyMerge (pyMerge c f) f = pyMerge c f ∧
      ∀ k, alookup f k = none → alookup (pyMerge c f) k = alookup c k := by
  constructor
  · have hfilter : f.filter (fun p => (alookup (pyMerge c f) p.1).isNone) = [] := by
      apply List.filter_eq_nil_iff.mpr
      intro p hp
      have h1 : (alookup f p.1).isSome = true := alookup_isSome_of_mem hp
      rw [pyMerge_alookup]
      cases hv : alookup f p.1 with
      | none => rw [hv] at h1; cases h1
      | some w => simp [oor]
    have hmap : (pyMerge c f).map (fun p => (p.1, (alookup f p.1).getD p.2)) =
        pyMerge c f := by
      apply list_map_id_of
      intro p hp
      rcases List.mem_append.mp hp with hcp | hfp
      · rcases List.mem_map.mp hcp with ⟨q, _, rfl⟩
        cases hv : alookup f q.1 <;> simp [hv]
      · have hmem := (List.mem_filter.mp hfp).1
        simp [alookup_of_mem_nodup hf hmem]
    calc pyMerge (pyMerge c f) f
        = (pyMerge c f).map (fun p => (p.1, (alookup f p.1).getD p.2)) ++
            f.filter (fun p => (alookup (pyMerge c f) p.1).isNone) := rfl
      _ = pyMerge c f := by rw [hmap, hfilter, List.append_nil]
  · intro k hk
    rw [pyMerge_alookup, hk, oor_none]

/-- Witness for C7 at a concrete state and fragment. -/
theorem c7_merge_idempotent_witness :
    pyMerge (pyMerge [("a", Val.int 1), ("b", Val.int 2)]
        [("b", Val.int 3), ("c", Val.int 4)]) [("b", Val.int 3), ("c", Val.int 4)] =
      pyMerge [("a", Val.int 1), ("b", Val.int 2)]
        [("b", Val.int 3), ("c", Val.int 4)] ∧
    alookup (pyMerge [("a", Val.int 1), ("b", Val.int 2)]
        [("b", Val.int 3), ("c", Val.int 4)]) "a" =
      alookup [("a", Val.int 1), ("b", Val.int 2)] "a" :=
  ⟨(c7_merge_idempotent _ _ (by decide)).1,
    (c7_merge_idempotent _ _ (by decide)).2 "a" (by rfl)⟩

/-! ### Symbolic execution of a successful run -/

/-- Precondition on the initial logs field: it is the list `ls`, or absent
(in which case `state.get("logs", [])` yields the empty list). -/
def LogsOkay (s : State) (ls : List Val) : Prop :=
  alookup s "logs" = some (.list ls) ∨ (alookup s "logs" = none ∧ ls = [])

theorem getLogs_of {s : State} {ls : List Val} (h : LogsOkay s ls) :
    getLogsList s = .ok ls := by
  rcases h with h | ⟨h, rfl⟩ <;> simp [getLogsList, h]

theorem parse_item (r : String) :
    alookup (parseRequest r) "item" = some (.str (itemOf r)) := rfl

theorem parse_qty (r : String) :
    alookup (parseRequest r) "quantity" = some (.int (qtyOf r)) := rfl

theorem supplier_field (cat : SAList) (it : String) :
    alookup (getSupplier cat it) "supplier" = some (.str (supplierFor cat it)) := rfl

/-- Boolean approval outcome of `_decide_to_dict`. -/
def approvedBool (maxQ q : Int) : Bool := if q ≤ maxQ then true else false

/-- Reason string of `_decide_to_dict`. -/
def reasonStr (maxQ q : Int) : String :=
  if q ≤ maxQ then withinStr maxQ q else exceedsStr maxQ q

theorem decideToDict_eq (maxQ q : Int) :
    decideToDict maxQ q =
      [("approved", .bool (approvedBool maxQ q)),
        ("reason", .str (reasonStr maxQ q))] := by
  by_cases hc : q ≤ maxQ <;> simp [decideToDict, approvedBool, reasonStr, hc]

/-- Fragment the intake node merges into the state. -/
def logs1 (r : String) (ls : List Val) : List Val := ls ++ [.str (intakeMsg r)]

/-- Logs after the supplier node. -/
def logs2 (r : String) (ls : List Val) : List Val :=
  logs1 r ls ++ [.str (supplierMsg (itemOf r))]

/-- Logs after the approval node. -/
def logs3 (r : String) (ls : List Val) : List Val :=
  logs2 r ls ++ [.str (approvalMsg (qtyOf r))]

/-- New keys written by `intake_node`. -/
def frag1 (r : String) (ls : List Val) : State :=
  [("item", .str (itemOf r)), ("quantity", .int (qtyOf r)),
    ("logs", .list (logs1 r ls))]

/-- New keys written by `supplier_node`. -/
def frag2 (r : String) (ls : List Val) : State :=
  [("supplier", .str (supplierFor demoCatalog (itemOf r))),
    ("logs", .list (logs2 r ls))]

/-- New keys written by `approval_node`. -/
def frag3 (r : String) (ls : List Val) : State :=
  [("approved", .bool (approvedBool 5 (qtyOf r))),
    ("reason", .str (reasonStr 5 (qtyOf r))), ("logs", .list (logs3 r ls))]

/-- State after the intake node (node return merged by the executor). -/
def state1 (s : State) (r : String) (ls : List Val) : State :=
  pyMerge s (pyMerge s (frag1 r ls))

/-- State after the supplier node. -/
def state2 (s : State) (r : String) (ls : List Val) : State :=
  pyMerge (state1 s r ls) (pyMerge (state1 s r ls) (frag2 r ls))

/-- Final state of a successful run. -/
def finalExpr (s : State) (r : String) (ls : List Val) : State :=
  pyMerge (state2 s r ls) (pyMerge (state2 s r ls) (frag3 r ls))

theorem intakeNode_ok (s : State) (r : String) (ls : List Val)
    (hreq : alookup s "original_request" = some (.str r))
    (hlogs : LogsOkay s ls) :
    intakeNode s = .ok (pyMerge s (frag1 r ls)) := by
  simp only [intakeNode, hreq, getLogs_of hlogs, parse_item, parse_qty, pyInt,
    frag1, logs1]

theorem supplierNode_ok (s : State) (it : String) (cur : List Val)
    (hitem : alookup s "item" = some (.str it))
    (hlogs : alookup s "logs" = some (.list cur)) :
    supplierNode s = .ok (pyMerge s
      [("supplier", .str (supplierFor demoCatalog it)),
        ("logs", .list (cur ++ [.str (supplierMsg it)]))]) := by
  simp only [supplierNode, hitem, Option.getD_some, getLogsList, hlogs,
    supplier_field]

theorem approvalNode_ok (s : State) (q : Int) (cur : List Val)
    (hq : alookup s "quantity" = some (.int q))
    (hlogs : alookup s "logs" = some (.list cur)) :
    approvalNode s = .ok (pyMerge s
      [("approved", .bool (approvedBool 5 q)), ("reason", .str (reasonStr 5 q)),
        ("logs", .list (cur ++ [.str (approvalMsg q)]))]) := by
  simp only [approvalNode, hq, Option.getD_some, pyInt, getLogsList, hlogs,
    decideToDict_eq, alookup, pyTruthy, pyStr]
  simp [pyStr]

theorem frag1_item (r : String) (ls : List Val) :
    alookup (frag1 r ls) "item" = some (.str (itemOf r)) := rfl

theorem frag1_qty (r : String) (ls : List Val) :
    alookup (frag1 r ls) "quantity" = some (.int (qtyOf r)) := rfl

theorem frag1_logs (r : String) (ls : List Val) :
    alookup (frag1 r ls) "logs" = some (.list (logs1 r ls)) := rfl

theorem frag2_qty (r : String) (ls : List Val) :
    alookup (frag2 r ls) "quantity" = none := rfl

theorem frag2_logs (r : String) (ls : List Val) :
    alookup (frag2 r ls) "logs" = some (.list (logs2 r ls)) := rfl

theorem frag3_logs (r : String) (ls : List Val) :
    alookup (frag3 r ls) "logs" = some (.list (logs3 r ls)) := rfl

theorem state1_item (s : State) (r : String) (ls : List Val) :
    alookup (state1 s r ls) "item" = some (.str (itemOf r)) := by
  rw [state1, pyMerge_alookup, pyMerge_alookup, frag1_item]; rfl

theorem state1_qty (s : State) (r : String) (ls : List Val) :
    alookup (state1 s r ls) "quantity" = some (.int (qtyOf r)) := by
  rw [state1, pyMerge_alookup, pyMerge_alookup, frag1_qty]; rfl

theorem state1_logs (s : State) (r : String) (ls : List Val) :
    alookup (state1 s r ls) "logs" = some (.list (logs1 r ls)) := by
  rw [state1, pyMerge_alookup, pyMerge_alookup, frag1_logs]; rfl

theorem state2_qty (s : State) (r : String) (ls : List Val) :
    alookup (state2 s r ls) "quantity" = some (.int (qtyOf r)) := by
  rw [state2, pyMerge_alookup, pyMerge_alookup, frag2_qty, state1_qty]; rfl

theorem state2_logs (s : State) (r : String) (ls : List Val) :
    alookup (state2 s r ls) "logs" = some (.list (logs2 r ls)) := by
  rw [state2, pyMerge_alookup, pyMerge_alookup, frag2_logs]; rfl

theorem nodeFn_intake : nodeFnOf "intake" = some intakeNode := rfl

theorem nodeFn_supplier : nodeFnOf "supplier" = some supplierNode := rfl

theorem nodeFn_approval : nodeFnOf "approval" = some approvalNode := rfl

theorem runPlan_step (n : String) (rest : List String) (s : State)
    (f : State → Except PyErr State) (frag : State)
    (hn : nodeFnOf n = some f) (hf : f s = .ok frag) :
    runPlan (n :: rest) s = runPlan rest (pyMerge s frag) := by
  simp [runPlan, hn, hf]

/-- Any initial state with a string `original_request` and well-formed logs
runs to completion, producing `finalExpr`. -/
theorem invoke_master (s : State) (r : String) (ls : List Val)
    (hreq : alookup s "original_request" = some (.str r))
    (hlogs : LogsOkay s ls) :
    invoke s = .ok (finalExpr s r ls) := by
  have h1 := intakeNode_ok s r ls hreq hlogs
  have h2 := supplierNode_ok (state1 s r ls) (itemOf r) (logs1 r ls)
    (state1_item s r ls) (state1_logs s r ls)
  have h3 := approvalNode_ok (state2 s r ls) (qtyOf r) (logs2 r ls)
    (state2_qty s r ls) (state2_logs s r ls)
  rw [show invoke s = runPlan ["intake", "supplier", "approval"] s from rfl,
    runPlan_step "intake" _ s intakeNode (pyMerge s (frag1 r ls)) nodeFn_intake h1,
    show pyMerge s (pyMerge s (frag1 r ls)) = state1 s r ls from rfl,
    runPlan_step "supplier" _ (state1 s r ls) supplierNode
      (pyMerge (state1 s r ls) (frag2 r ls)) nodeFn_supplier h2,
    show pyMerge (state1 s r ls) (pyMerge (state1 s r ls) (frag2 r ls)) =
      state2 s r ls from rfl,
    runPlan_step "approval" _ (state2 s r ls) approvalNode
      (pyMerge (state2 s r ls) (frag3 r ls)) nodeFn_approval h3]
  rfl

/-! ### Substring check used to state the scenario claims -/

/-- Is the first list a prefix of the second (character-wise)? -/
def listIsPrefix : List Char → List Char → Bool
  | [], _ => true
  | _ :: _, [] => false
  | a :: as, b :: bs => a == b && listIsPrefix as bs

/-- Does the needle occur at some position of the haystack? -/
def strContainsAux (needle : List Char) : List Char → Bool
  | [] => listIsPrefix needle []
  | c :: cs => listIsPrefix needle (c :: cs) || strContainsAux needle cs

/-- Does `hay` contain `needle` as a substring? -/
def strContains (hay needle : String) : Bool := strContainsAux needle.data hay.data

/-! ### Claims on the two concrete scenarios and the failure path -/

/-- Initial state of concrete scenario 1. -/
def c1Init : State := [("original_request", Val.str "Order 3 laptops")]

/-- C1 counterexample: running the compiled pipeline on
`\x7boriginal_request: "Order 3 laptops"\x7d` yields `item = "laptops"` —
the intake agent keeps the plural whenever the parsed quantity is not 1
(`intake_agent.py` lines 100-105 and its module docstring example) — so the
final state does not contain `item: "laptop"` as the claim states. -/
theorem c1_counterexample :
    asStr (runField c1Init "item") = some "laptops" ∧
      asStr (runField c1Init "item") ≠ some "laptop" :=
  ⟨rfl, by decide⟩

/-- C1 amended: with `item = "laptops"` (plural preserved), the other three
fields are as claimed: quantity 3, supplier "Acme Computers", approved true. -/
theorem c1_amended :
    runField c1Init "item" = some (.str "laptops") ∧
      runField c1Init "quantity" = some (.int 3) ∧
      runField c1Init "supplier" = some (.str "Acme Computers") ∧
      runField c1Init "approved" = some (.bool true) :=
  ⟨rfl, rfl, rfl, rfl⟩

/-- C2 counterexample: the complete final state of the `run_demo` invocation
for "Order 3 laptops".  Its fields are exactly the seven `WorkflowState`
keys; every per-stage record lives in the stage-written `logs` list of
strings.  There is no Executor-appended `\x7bstage_name, fragment_produced\x7d`
entry anywhere in the final state, contradicting the claim that such an
Executor-owned audit trace exists distinct from the `logs` field. -/
theorem c2_counterexample :
    invoke (runDemoState "Order 3 laptops") = .ok
      [("original_request", .str "Order 3 laptops"),
        ("logs", .list [.str "Received request: Order 3 laptops",
          .str (intakeMsg "Order 3 laptops"), .str (supplierMsg "laptops"),
          .str (approvalMsg 3)]),
        ("item", .str "laptops"), ("quantity", .int 3),
        ("supplier", .str "Acme Computers"), ("approved", .bool true),
        ("reason",
          .str "Quantity 3 is within auto-approval threshold (<= 5).")] := rfl

/-- C3 counterexample: when the intake stage raises (here: missing
`original_request`), `invoke` propagates the stage's own `KeyError`
unchanged — no `StageExecutionError` type exists anywhere in the code, and
the propagated error carries the dict key, not the name of any graph
node. -/
theorem c3_counterexample :
    invoke [] = .error (.keyError "original_request") ∧
      "original_request" ∉ graphNodes :=
  ⟨rfl, by decide⟩

theorem getLogs_inv (s : State) (ls : List Val) (h : getLogsList s = .ok ls) :
    LogsOkay s ls := by
  cases hl : alookup s "logs" with
  | none =>
    simp only [getLogsList, hl, Except.ok.injEq] at h
    exact Or.inr ⟨hl, h.symm⟩
  | some v =>
    cases v with
    | list l =>
      simp only [getLogsList, hl, Except.ok.injEq] at h
      exact Or.inl (by rw [hl, h])
    | str t => simp [getLogsList, hl] at h
    | int n => simp [getLogsList, hl] at h
    | bool b => simp [getLogsList, hl] at h

/-- Inversion of intake success: the initial state had a string request and
well-formed logs, and the returned update is the merged fragment. -/
theorem intakeNode_ok_inv (s : State) (f1 : State) (h : intakeNode s = .ok f1) :
    ∃ r ls, alookup s "original_request" = some (.str r) ∧ LogsOkay s ls ∧
      f1 = pyMerge s (frag1 r ls) := by
  cases hreq : alookup s "original_request" with
  | none => simp [intakeNode, hreq] at h
  | some v =>
    cases v with
    | str r =>
      cases hlog : getLogsList s with
      | error e => simp [intakeNode, hreq, hlog] at h
      | ok prior =>
        have hok := getLogs_inv s prior hlog
        refine ⟨r, prior, rfl, hok, ?_⟩
        rw [intakeNode_ok s r prior hreq hok] at h
        injection h with h'
        exact h'.symm
    | int n => simp [intakeNode, hreq] at h
    | bool b => simp [intakeNode, hreq] at h
    | list l => simp [intakeNode, hreq] at h

/-- C3 amended: for every run in which a Stage raises, `invoke` propagates
the stage's own underlying exception unchanged — the `KeyError` of a
missing `original_request`, or the `TypeError` of a non-string request or
non-list `logs` — and returns no final State; no `StageExecutionError`
wrapper exists in the code.  The statement is an exact characterization:
`invoke` raises `e` precisely when the intake stage raises `e` (in this
pipeline only the intake stage can raise, since the later stages always
receive the string item and integer quantity intake just wrote). -/
theorem c3_amended (s : State) (e : PyErr) :
    (intakeNode s = .error e → invoke s = .error e) ∧
      (invoke s = .error e → intakeNode s = .error e) := by
  constructor
  · intro h
    rw [show invoke s = runPlan ["intake", "supplier", "approval"] s from rfl]
    simp [runPlan, nodeFn_intake, h]
  · intro h
    cases ei : intakeNode s with
    | error e2 =>
      have hp : invoke s = .error e2 := by
        rw [show invoke s = runPlan ["intake", "supplier", "approval"] s
          from rfl]
        simp [runPlan, nodeFn_intake, ei]
      rw [hp] at h
      injection h with h'
      exact congrArg Except.error h'
    | ok f1 =>
      obtain ⟨r, ls, hreq, hlogs, rfl⟩ := intakeNode_ok_inv s f1 ei
      rw [invoke_master s r ls hreq hlogs] at h
      exact Except.noConfusion h

/-- Witness for the amended C3 at a concrete raising input (a `TypeError`
path: the request is not a string). -/
theorem c3_amended_witness :
    invoke [("original_request", Val.int 5)] =
        .error (.typeError "expected string object for re.search") ∧
      intakeNode [("original_request", Val.int 5)] =
        .error (.typeError "expected string object for re.search") :=
  ⟨(c3_amended [("original_request", Val.int 5)]
      (.typeError "expected string object for re.search")).1 (by rfl),
    (c3_amended [("original_request", Val.int 5)]
      (.typeError "expected string object for re.search")).2 (by rfl)⟩

/-- Initial state of concrete scenario 2. -/
def c4Init : State := [("original_request", Val.str "Order 10 chairs")]

/-- C4: running the compiled pipeline on
`\x7boriginal_request: "Order 10 chairs"\x7d` yields quantity 10, supplier
"OfficeCo", approved false, and a reason string that references the
approval threshold. -/
theorem c4_scenario2 :
    runField c4Init "quantity" = some (.int 10) ∧
      runField c4Init "supplier" = some (.str "OfficeCo") ∧
      runField c4Init "approved" = some (.bool false) ∧
      runField c4Init "reason" =
        some (.str "Quantity 10 exceeds auto-approval threshold (> 5).") ∧
      strContains "Quantity 10 exceeds auto-approval threshold (> 5)."
        "threshold" = true ∧
      strContains "Quantity 10 exceeds auto-approval threshold (> 5)."
        "5" = true :=
  ⟨rfl, rfl, rfl, rfl, rfl, rfl⟩

/-- C9: when `examples/test_requests.txt` is absent, `main` falls back to
the single hardcoded request "Order 3 laptops" (instead of failing), and
processing it through the pipeline completes without raising. -/
theorem c9_fallback :
    mainLines none = ["Order 3 laptops"] ∧
      runOk (runDemoState "Order 3 laptops") = true ∧
      runField (runDemoState "Order 3 laptops") "approved" =
        some (.bool true) :=
  ⟨rfl, rfl, rfl⟩

/-! ### Trace ordering and provenance of the final state -/

theorem finalExpr_logs (s : State) (r : String) (ls : List Val) :
    alookup (finalExpr s r ls) "logs" = some (.list (logs3 r ls)) := by
  rw [finalExpr, pyMerge_alookup, pyMerge_alookup, frag3_logs]; rfl

/-- C6: for the three-node linear chain intake → supplier → approval, every
run lists the intake stage's log entry before the supplier stage's entry,
and the supplier entry before the approval entry: the final logs are the
initial ones followed by exactly `[intake entry, supplier entry, approval
entry]` in that order. -/
theorem c6_trace_order (s : State) (r : String) (ls : List Val)
    (hreq : alookup s "original_request" = some (.str r))
    (hlogs : LogsOkay s ls) :
    runOk s = true ∧
      runField s "logs" = some (.list (ls ++
        [.str (intakeMsg r), .str (supplierMsg (itemOf r)),
          .str (approvalMsg (qtyOf r))])) := by
  have hm := invoke_master s r ls hreq hlogs
  refine ⟨by simp [runOk, hm], ?_⟩
  simp only [runField, hm, finalExpr_logs, logs3, logs2, logs1,
    List.append_assoc, List.cons_append, List.nil_append]

/-- Witness for C6 at a concrete initial state. -/
theorem c6_trace_order_witness :
    runOk [("original_request", Val.str "Order 2 desks"),
        ("logs", Val.list [])] = true ∧
      runField [("original_request", Val.str "Order 2 desks"),
        ("logs", Val.list [])] "logs" = some (.list ([] ++
          [.str (intakeMsg "Order 2 desks"),
            .str (supplierMsg (itemOf "Order 2 desks")),
            .str (approvalMsg (qtyOf "Order 2 desks"))])) :=
  c6_trace_order _ "Order 2 desks" [] (by rfl) (Or.inl (by rfl))

/-- Keys a stage fragment may introduce. -/
def stageFragKeys : List String :=
  ["item", "quantity", "logs", "supplier", "approved", "reason"]

theorem pyMerge_isSome {α : Type} (c f : List (String × α)) (k : String)
    (h : (alookup (pyMerge c f) k).isSome = true) :
    (alookup c k).isSome = true ∨ (alookup f k).isSome = true := by
  rw [pyMerge_alookup] at h
  cases hf : alookup f k
  · rw [hf, oor_none] at h; exact Or.inl h
  · exact Or.inr (by simp [hf])

theorem alookup_key_mem {α : Type} (l : List (String × α)) (k : String)
    (h : (alookup l k).isSome = true) : k ∈ l.map Prod.fst := by
  induction l with
  | nil => simp [alookup] at h
  | cons p t ih =>
    by_cases hp : p.1 = k
    · subst hp; simp
    · rw [alookup, if_neg hp] at h
      simp [ih h]

theorem exec_merge_isSome (c f : State) (k : String)
    (h : (alookup (pyMerge c (pyMerge c f)) k).isSome = true) :
    (alookup c k).isSome = true ∨ (alookup f k).isSome = true := by
  rcases pyMerge_isSome _ _ _ h with h1 | h1
  · exact Or.inl h1
  · rcases pyMerge_isSome _ _ _ h1 with h2 | h2
    · exact Or.inl h2
    · exact Or.inr h2

/-- C2 amended: the Executor appends nothing of its own to the final State:
every key of a successful run's final State comes from the initial State or
from one of the stage fragments, and the only per-stage audit record is the
stage-written `logs` field, extended by exactly one entry per stage in
execution order. -/
theorem c2_amended (s : State) (r : String) (ls : List Val)
    (hreq : alookup s "original_request" = some (.str r))
    (hlogs : LogsOkay s ls) :
    runOk s = true ∧
      (∀ k, (runField s k).isSome = true →
        (alookup s k).isSome = true ∨ k ∈ stageFragKeys) ∧
      runField s "logs" = some (.list (ls ++
        [.str (intakeMsg r), .str (supplierMsg (itemOf r)),
          .str (approvalMsg (qtyOf r))])) := by
  have hm := invoke_master s r ls hreq hlogs
  refine ⟨by simp [runOk, hm], ?_, ?_⟩
  · intro k hk
    simp only [runField, hm] at hk
    replace hk : (alookup (pyMerge (state2 s r ls)
        (pyMerge (state2 s r ls) (frag3 r ls))) k).isSome = true := hk
    rcases exec_merge_isSome _ _ _ hk with hk2 | hf3
    · replace hk2 : (alookup (pyMerge (state1 s r ls)
          (pyMerge (state1 s r ls) (frag2 r ls))) k).isSome = true := hk2
      rcases exec_merge_isSome _ _ _ hk2 with hk1 | hf2
      · replace hk1 : (alookup (pyMerge s (pyMerge s (frag1 r ls))) k).isSome
            = true := hk1
        rcases exec_merge_isSome _ _ _ hk1 with hs | hf1
        · exact Or.inl hs
        · have hmem := alookup_key_mem _ _ hf1
          rw [show (frag1 r ls).map Prod.fst = ["item", "quantity", "logs"]
            from rfl] at hmem
          right
          simp only [List.mem_cons, List.not_mem_nil, or_false] at hmem
          rcases hmem with rfl | rfl | rfl <;> simp [stageFragKeys]
      · have hmem := alookup_key_mem _ _ hf2
        rw [show (frag2 r ls).map Prod.fst = ["supplier", "logs"]
          from rfl] at hmem
        right
        simp only [List.mem_cons, List.not_mem_nil, or_false] at hmem
        rcases hmem with rfl | rfl <;> simp [stageFragKeys]
    · have hmem := alookup_key_mem _ _ hf3
      rw [show (frag3 r ls).map Prod.fst = ["approved", "reason", "logs"]
        from rfl] at hmem
      right
      simp only [List.mem_cons, List.not_mem_nil, or_false] at hmem
      rcases hmem with rfl | rfl | rfl <;> simp [stageFragKeys]
  · simp only [runField, hm, finalExpr_logs, logs3, logs2, logs1,
      List.append_assoc, List.cons_append, List.nil_append]

/-- Witness for the amended C2 at a concrete initial state (logs absent). -/
theorem c2_amended_witness :
    runOk [("original_request", Val.str "buy 7 monitors")] = true ∧
      ((alookup [("original_request", Val.str "buy 7 monitors")]
          "supplier").isSome = true ∨ "supplier" ∈ stageFragKeys) ∧
      runField [("original_request", Val.str "buy 7 monitors")] "logs" =
        some (.list ([] ++
          [.str (intakeMsg "buy 7 monitors"),
            .str (supplierMsg (itemOf "buy 7 monitors")),
            .str (approvalMsg (qtyOf "buy 7 monitors"))])) :=
  ⟨(c2_amended [("original_request", Val.str "buy 7 monitors")]
      "buy 7 monitors" [] (by rfl) (Or.inr ⟨by rfl, rfl⟩)).1,
    (c2_amended [("original_request", Val.str "buy 7 monitors")]
      "buy 7 monitors" [] (by rfl) (Or.inr ⟨by rfl, rfl⟩)).2.1
      "supplier" (by rfl),
    (c2_amended [("original_request", Val.str "buy 7 monitors")]
      "buy 7 monitors" [] (by rfl) (Or.inr ⟨by rfl, rfl⟩)).2.2⟩

/-! ### Supplier lookup claims -/

/-- C8 counterexample: `get_supplier` guards each mapping hit with Python
truthiness (`if supplier:` in `_get_relevant_documents`), so a catalog
entry whose supplier string is empty is treated as missing.  For the
catalog `\x7b"pen": ""\x7d`, the item "pen" normalizes exactly to the catalog
key "pen", yet `get_supplier` returns "Unknown Supplier" instead of that
catalog's supplier `""` — refuting the claim as universally stated. -/
theorem c8_counterexample :
    supplierFor [("pen", "")] "pen" = "Unknown Supplier" ∧
      ("Unknown Supplier" : String) ≠ "" :=
  ⟨rfl, by decide⟩

/-- C8 amended: the lookup normalizes by stripping, lowercasing, and
dropping one trailing `s` unless the name ends in `ss` (keys are stored
normalized the same way); whenever the normalized item — or, failing a
truthy direct hit, its plural/singular toggle — maps to a *nonempty*
supplier string in the stored catalog, `get_supplier` returns that
supplier for the item. -/
theorem c8_amended (cat : SAList) (item v : String)
    (h : (alookup (buildMapping cat) (pyNormalize item) = some v ∧ v ≠ "") ∨
      (truthyStr (alookup (buildMapping cat) (pyNormalize item)) = none ∧
        alookup (buildMapping cat) (altNormalize (pyNormalize item)) = some v ∧
        v ≠ "")) :
    getSupplier cat item = [("item", .str item), ("supplier", .str v)] := by
  rcases h with ⟨h1, h2⟩ | ⟨h1, h2, h3⟩
  · simp [getSupplier, supplierFor, retrievedDocs, truthyStr, h1, h2]
  · simp only [getSupplier, supplierFor, retrievedDocs, h1, h2]
    simp [truthyStr, h3]

/-- Witness for the amended C8: "laptops" normalizes to the stored key
"laptop" of the demo catalog. -/
theorem c8_amended_witness :
    getSupplier demoCatalog "laptops" =
      [("item", .str "laptops"), ("supplier", .str "Acme Computers")] :=
  c8_amended demoCatalog "laptops" "Acme Computers"
    (Or.inl ⟨by rfl, by decide⟩)

/-- C10: `get_supplier` is total — when neither the normalized item nor its
plural/singular toggle hits the stored catalog, it returns the
`\x7bitem, supplier: "Unknown Supplier"\x7d` dict rather than raising (the
embedding is a total function; every branch of the source returns a
dict). -/
theorem c10_unknown_supplier (cat : SAList) (item : String)
    (h1 : alookup (buildMapping cat) (pyNormalize item) = none)
    (h2 : alookup (buildMapping cat) (altNormalize (pyNormalize item)) = none) :
    getSupplier cat item =
      [("item", .str item), ("supplier", .str "Unknown Supplier")] := by
  simp [getSupplier, supplierFor, retrievedDocs, truthyStr, h1, h2]

/-- Witness for C10 on the demo catalog with an unmatched item. -/
theorem c10_unknown_supplier_witness :
    getSupplier demoCatalog "unicorn" =
      [("item", .str "unicorn"), ("supplier", .str "Unknown Supplier")] :=
  c10_unknown_supplier demoCatalog "unicorn" (by rfl) (by rfl)

/-! ### Heap-level model of a run

The pure model above works with state values.  To settle the non-mutation
claim we re-express the same node code at the level of Python objects: a
heap of allocated objects (dicts and lists), addresses, and values that may
reference list objects (the `logs` list).  Every dict/list operation the
nodes perform — `state[...]`, `state.get(...)`, `old + [entry]`,
`\x7b**state, ...\x7d` — either reads the heap or allocates a fresh object at
the end of the heap; no operation writes to an existing address, exactly as
in the source.  Each step returns the heap alongside its outcome, so a
raising run surfaces the heap exactly as it stood when the exception was
raised (a Python exception rolls back nothing); in these nodes every raise
happens before the node's allocations. -/

/-- A Python value as stored inside a heap object. -/
inductive HVal where
  | str : String → HVal
  | int : Int → HVal
  | bool : Bool → HVal
  | ref : Nat → HVal

/-- A heap-allocated Python object. -/
inductive HObj where
  | list : List HVal → HObj
  | dict : List (String × HVal) → HObj

/-- The object heap; an address is an index, allocation appends. -/
abbrev Heap : Type := List HObj

/-- Python `int()` on a heap value. -/
def pyIntH : HVal → Except PyErr Int
  | .int n => .ok n
  | .bool b => .ok (if b then 1 else 0)
  | .str s => pyIntOfStr s
  | .ref _ => .error (.typeError "int() argument must be a number")

/-- `state.get("logs", [])` at heap level: follow the stored reference to
the list object; a present non-list value fails the `+` concatenation. -/
def hGetLogs (h : Heap) (d : List (String × HVal)) : Except PyErr (List HVal) :=
  match alookup d "logs" with
  | none => .ok []
  | some (.ref la) =>
    match h[la]? with
    | some (.list l) => .ok l
    | _ => .error (.typeError "bad reference")
  | some _ => .error (.typeError "can only concatenate list to list")

/-- `intake_node` at heap level: read the state dict, build the new logs
list and the merged dict as fresh allocations; on a raise, return the heap
as it stood. -/
def heapIntake (h : Heap) (a : Nat) : Heap × Except PyErr Nat :=
  match h[a]? with
  | some (.dict d) =>
    match alookup d "original_request" with
    | some (.str r) =>
      match hGetLogs h d with
      | .error e => (h, .error e)
      | .ok prior =>
        let h1 := h ++ [HObj.list (prior ++ [.str (intakeMsg r)])]
        let nd := pyMerge d
          [("item", .str (itemOf r)), ("quantity", .int (qtyOf r)),
            ("logs", .ref h.length)]
        (h1 ++ [HObj.dict nd], .ok h1.length)
    | some _ => (h, .error (.typeError "expected string object for re.search"))
    | none => (h, .error (.keyError "original_request"))
  | _ => (h, .error (.typeError "state is not a dict"))

/-- `supplier_node` at heap level. -/
def heapSupplier (h : Heap) (a : Nat) : Heap × Except PyErr Nat :=
  match h[a]? with
  | some (.dict d) =>
    match (alookup d "item").getD (.str "") with
    | .str it =>
      match hGetLogs h d with
      | .error e => (h, .error e)
      | .ok prior =>
        let h1 := h ++ [HObj.list (prior ++ [.str (supplierMsg it)])]
        let nd := pyMerge d
          [("supplier", .str (supplierFor demoCatalog it)),
            ("logs", .ref h.length)]
        (h1 ++ [HObj.dict nd], .ok h1.length)
    | _ => (h, .error (.attrError "strip"))
  | _ => (h, .error (.typeError "state is not a dict"))

/-- `approval_node` at heap level. -/
def heapApproval (h : Heap) (a : Nat) : Heap × Except PyErr Nat :=
  match h[a]? with
  | some (.dict d) =>
    match pyIntH ((alookup d "quantity").getD (.int 1)) with
    | .error e => (h, .error e)
    | .ok q =>
      match alookup (decideToDict 5 q) "approved",
          alookup (decideToDict 5 q) "reason" with
      | some aV, some rV =>
        match hGetLogs h d with
        | .error e => (h, .error e)
        | .ok prior =>
          let h1 := h ++ [HObj.list (prior ++ [.str (approvalMsg q)])]
          let nd := pyMerge d
            [("approved", .bool (pyTruthy aV)), ("reason", .str (pyStr rV)),
              ("logs", .ref h.length)]
          (h1 ++ [HObj.dict nd], .ok h1.length)
      | _, _ => (h, .error (.keyError "approved"))
  | _ => (h, .error (.typeError "state is not a dict"))

/-- `app.invoke` at heap level: run the three planned nodes in order,
threading the (full) dict each node returned; a raising node aborts the run
and the heap is surfaced exactly as the raise left it.  The executor's own
channel bookkeeping allocates only fresh structures of its own. -/
def heapRun (h : Heap) (a : Nat) : Heap × Except PyErr Nat :=
  match heapIntake h a with
  | (h1, .error e) => (h1, .error e)
  | (h1, .ok a1) =>
    match heapSupplier h1 a1 with
    | (h2, .error e) => (h2, .error e)
    | (h2, .ok a2) => heapApproval h2 a2

theorem getElem?_append_two {α : Type} (l : List α) (o1 o2 : α) (i : Nat)
    (hi : i < l.length) : (l ++ [o1] ++ [o2])[i]? = l[i]? := by
  have h1 : i < (l ++ [o1]).length := by simp; omega
  rw [List.getElem?_append, if_pos h1, List.getElem?_append, if_pos hi]

theorem heapIntake_extends (h : Heap) (a : Nat) :
    h.length ≤ (heapIntake h a).1.length ∧
      ∀ i, i < h.length → (heapIntake h a).1[i]? = h[i]? := by
  unfold heapIntake
  repeat' split
  all_goals
    first
      | exact ⟨le_rfl, fun i hi => rfl⟩
      | exact ⟨by simp, fun i hi => getElem?_append_two h _ _ i hi⟩

theorem heapSupplier_extends (h : Heap) (a : Nat) :
    h.length ≤ (heapSupplier h a).1.length ∧
      ∀ i, i < h.length → (heapSupplier h a).1[i]? = h[i]? := by
  unfold heapSupplier
  repeat' split
  all_goals
    first
      | exact ⟨le_rfl, fun i hi => rfl⟩
      | exact ⟨by simp, fun i hi => getElem?_append_two h _ _ i hi⟩

theorem heapApproval_extends (h : Heap) (a : Nat) :
    h.length ≤ (heapApproval h a).1.length ∧
      ∀ i, i < h.length → (heapApproval h a).1[i]? = h[i]? := by
  unfold heapApproval
  repeat' split
  all_goals
    first
      | exact ⟨le_rfl, fun i hi => rfl⟩
      | exact ⟨by simp, fun i hi => getElem?_append_two h _ _ i hi⟩

/-- C5: `invoke(initial_state)` never modifies the caller's objects, whether
the run completes or raises: every heap object allocated before the call —
in particular the `initial_state` dict at its address and every list it
references — is unchanged afterwards.  The run only reads existing objects
and allocates fresh ones, mirroring `state.get(...) + [...]` and
`\x7b**state, ...\x7d` in the node bodies, so a post-call equality check of
`initial_state` against a saved copy passes for every initial State. -/
theorem c5_no_mutation (h : Heap) (a : Nat) :
    h.length ≤ (heapRun h a).1.length ∧
      ∀ i, i < h.length → (heapRun h a).1[i]? = h[i]? := by
  have x1 := heapIntake_extends h a
  unfold heapRun
  rcases e1 : heapIntake h a with ⟨h1, e | a1⟩ <;> rw [e1] at x1 <;>
    dsimp only at x1 ⊢
  · exact x1
  · have x2 := heapSupplier_extends h1 a1
    rcases e2 : heapSupplier h1 a1 with ⟨h2, e | a2⟩ <;> rw [e2] at x2 <;>
      dsimp only at x2 ⊢
    · exact ⟨le_trans x1.1 x2.1, fun i hi => by
        rw [x2.2 i (lt_of_lt_of_le hi x1.1), x1.2 i hi]⟩
    · have x3 := heapApproval_extends h2 a2
      refine ⟨le_trans x1.1 (le_trans x2.1 x3.1), fun i hi => ?_⟩
      rw [x3.2 i (lt_of_lt_of_le (lt_of_lt_of_le hi x1.1) x2.1),
        x2.2 i (lt_of_lt_of_le hi x1.1), x1.2 i hi]

/-- The heap holding `run_demo`'s initial state for "Order 3 laptops": the
logs list object at address 0 and the state dict at address 1. -/
def demoHeap : Heap :=
  [.list [.str "Received request: Order 3 laptops"],
    .dict [("original_request", .str "Order 3 laptops"), ("logs", .ref 0)]]

/-- Witness for C5: after the concrete demo run the initial-state dict at
address 1 is unchanged, and after a concrete raising run (a state dict
lacking `original_request`, so the intake stage raises `KeyError`) the
input dict at address 0 is likewise unchanged. -/
theorem c5_no_mutation_witness :
    (heapRun demoHeap 1).1[1]? = demoHeap[1]? ∧
      (heapRun [HObj.dict []] 0).1[0]? = [HObj.dict []][0]? :=
  ⟨(c5_no_mutation demoHeap 1).2 1 (by decide),
    (c5_no_mutation [HObj.dict []] 0).2 0 (by decide)⟩

end Procure

